import Mathlib

/-!
Shallow embedding of the core of `app.py` from the simple-trading-journal
repository: the P&L engine (`calculate_pnl`), the manual-entry validation
engine (`validate_trade_data`), the import validation and reconciliation
pipeline (`validate_import_data` / `import_trades`), and the Tastytrade
broker row parser (`parse_tastytrade_row`).

Conventions of the embedding:
- Python floats holding prices are modelled as `ℚ`; quantities as `ℤ`.
- A Python function that raises `TradeValidationError` is modelled as
  returning `Option String` (the error message) / `none` for success.
- The external pandas date parser (`pd.to_datetime` + `strftime('%Y-%m-%d')`)
  is modelled as an opaque-to-us parameter `pdDate : String → Option String`
  (`none` = unparseable, `some s` = the canonical rendering).
- `datetime.now().strftime('%Y-%m-%d')` inside the broker row parser is
  modelled as the explicit parameter `today : String`.
-/

/-- The fixed strategy enumeration (`STRATEGY_OPTIONS` in app.py, lines 34-44). -/
def STRATEGY_OPTIONS : List String :=
  ["Long Stock", "Short Stock", "Long Call", "Short Call", "Long Put",
   "Short Put", "Covered Call", "Cash Secured Put", "Other"]

/-- Python `pat in s` (substring containment) on lists of characters:
`infixOf pat l` is true iff `pat` occurs contiguously inside `l`. -/
def infixOf (pat : List Char) : List Char → Bool
  | [] => pat.isEmpty
  | c :: rest => pat.isPrefixOf (c :: rest) || infixOf pat rest

/-- Python `pat in s` for strings. -/
def strContains (s pat : String) : Bool :=
  infixOf pat.toList s.toList

/-- Python `s.upper()` (character-list implementation of `String.toUpper`,
kept at the list level so that concrete instances evaluate). -/
def pyUpper (s : String) : String :=
  String.mk (s.toList.map Char.toUpper)

/-- Python `s.lower()`. -/
def pyLower (s : String) : String :=
  String.mk (s.toList.map Char.toLower)

/-- Python `s.strip()`: remove leading and trailing whitespace. -/
def pyStrip (s : String) : String :=
  String.mk (((s.toList.dropWhile Char.isWhitespace).reverse.dropWhile
    Char.isWhitespace).reverse)

/-- `calculate_pnl` (app.py, lines 140-198).

For open trades (`exit == 0`) it returns 0; for the six option strategies it
returns `(entry - exit) * abs(quantity) * 100`; otherwise (stock and
"Other") it returns `(exit - entry) * quantity * 1`. -/
def calculate_pnl (entry exit : ℚ) (quantity : ℤ) (strategy : String) : ℚ :=
  -- `if exit == 0: return 0.0`
  if exit = 0 then 0
  else
    if strategy ∈ ["Cash Secured Put", "Covered Call", "Long Put", "Long Call",
                   "Short Put", "Short Call"] then
      -- options branch: `(entry - exit) * abs(quantity) * 100`
      (entry - exit) * (quantity.natAbs : ℚ) * 100
    else
      -- stock branch: `(exit - entry) * quantity * 1`
      (exit - entry) * (quantity : ℚ) * 1

/-- A manual-entry candidate, the typed content of the `trade_data` dict
handed to `validate_trade_data` / `add_trade`. Numeric fields are modelled
already parsed (the `float(...)` / `int(...)` conversions in the source
succeed on them by construction). -/
structure TradeData where
  date : String
  symbol : String
  strategy : String
  entry_price : ℚ
  exit_price : ℚ
  quantity : ℤ
  notes : String
  deriving DecidableEq, Repr

/-- `validate_trade_data` (app.py, lines 201-246), returning `some msg` where
the Python raises `TradeValidationError(msg)` and `none` on success.

On a typed candidate the `float(exit_price)` re-parse of a supplied exit
price (lines 234-239) cannot fail, so that branch produces no error here. -/
def validate_trade_data (td : TradeData) : Option String :=
  if td.symbol = "" then some "Symbol is required"
  else if td.strategy = "" then some "Strategy is required"
  else if td.entry_price ≤ 0 then some "Entry price must be positive"
  else if td.quantity = 0 then some "Quantity cannot be zero"
  else if 0 < td.quantity ∧ strContains td.strategy "Short" then
    some "Short strategies require negative quantity"
  else if td.quantity < 0 ∧ strContains td.strategy "Long" then
    some "Long strategies require positive quantity"
  else none

/-- A persisted trade record (the row shape produced by `add_trade` and
the import pipeline). -/
structure Trade where
  date : String
  symbol : String
  strategy : String
  entry_price : ℚ
  exit_price : ℚ
  quantity : ℤ
  pnl : ℚ
  notes : String
  status : String
  deriving DecidableEq, Repr

/-- The trade record constructed by `add_trade` (app.py, lines 292-320):
validation first (an error aborts the add), then `pnl` from
`calculate_pnl`, then `status = 'Open' if exit_price == 0 else 'Closed'`.
The source appends this record to the loaded collection and saves. -/
def add_trade (td : TradeData) : Option Trade :=
  match validate_trade_data td with
  | some _ => none
  | none =>
    some { date := td.date
           symbol := td.symbol
           strategy := td.strategy
           entry_price := td.entry_price
           exit_price := td.exit_price
           quantity := td.quantity
           pnl := calculate_pnl td.entry_price td.exit_price td.quantity td.strategy
           notes := td.notes
           status := if td.exit_price = 0 then "Open" else "Closed" }

/-! ## Import pipeline (generic CSV path) -/

/-- A raw row of a generic import file after column mapping
(`mapped_df` in `import_trades`, app.py lines 863-879). Cells that the
source re-parses with `float(...)` / `int(...)` are modelled already
numeric; `exit_price = none` models a missing/NaN cell (later defaulted
to `0.0` by `fillna`). -/
structure ImportRow where
  date : String
  symbol : String
  strategy : String
  entry_price : ℚ
  quantity : ℤ
  exit_price : Option ℚ
  notes : String
  deriving DecidableEq, Repr

/-- The per-row checks of `validate_import_data` (app.py, lines 797-833),
in source order: date parseable, symbol non-blank, strategy in
`STRATEGY_OPTIONS`, entry price positive, quantity nonzero. The Python
messages also interpolate the offending raw cell value; that suffix is
elided here. On typed cells the numeric re-parses and the exit-price check
(lines 829-833) cannot fail. -/
def validateImportRow (pdDate : String → Option String) (idx : ℕ)
    (r : ImportRow) : List String :=
  (if (pdDate r.date).isSome then []
   else ["Row " ++ toString (idx + 1) ++ ": Invalid date format"])
  ++ (if pyStrip r.symbol = "" then ["Row " ++ toString (idx + 1) ++ ": Missing symbol"]
      else [])
  ++ (if r.strategy ∈ STRATEGY_OPTIONS then []
      else ["Row " ++ toString (idx + 1) ++ ": Invalid strategy"])
  ++ (if 0 < r.entry_price then []
      else ["Row " ++ toString (idx + 1) ++ ": Entry price must be positive"])
  ++ (if r.quantity = 0 then ["Row " ++ toString (idx + 1) ++ ": Quantity cannot be zero"]
      else [])

/-- The `for idx, row in df.iterrows()` loop of `validate_import_data`,
accumulating the per-row error lists in order. -/
def validate_rows (pdDate : String → Option String) :
    ℕ → List ImportRow → List String
  | _, [] => []
  | idx, r :: rest => validateImportRow pdDate idx r ++ validate_rows pdDate (idx + 1) rest

/-- `validate_import_data` (app.py, lines 775-835). The required-column
check (lines 788-794) is vacuous on the typed row schema. -/
def validate_import_data (pdDate : String → Option String)
    (rows : List ImportRow) : List String :=
  validate_rows pdDate 0 rows

/-- The normalization performed on each mapped row by `import_trades`
(app.py, lines 890-926): canonical date, numeric coercion with
`exit_price` defaulted to 0, `pnl` recomputed by `calculate_pnl`,
`status = 'Closed' if exit_price > 0 else 'Open'`, symbol upper-cased and
trimmed. -/
def normalizeRow (pdDate : String → Option String) (r : ImportRow) : Trade :=
  let exitv := r.exit_price.getD 0
  { date := (pdDate r.date).getD r.date
    symbol := pyStrip (pyUpper r.symbol)
    strategy := r.strategy
    entry_price := r.entry_price
    exit_price := exitv
    quantity := r.quantity
    pnl := calculate_pnl r.entry_price exitv r.quantity r.strategy
    notes := r.notes
    status := if 0 < exitv then "Closed" else "Open" }

/-- The duplicate-detection key built by `import_trades` (app.py,
lines 937-942): the f-string `f"{date}_{symbol}_{entry_price}"`.
`toString : ℚ → String` stands in for Python's float rendering. -/
def dupKey (t : Trade) : String :=
  t.date ++ "_" ++ t.symbol ++ "_" ++ toString t.entry_price

/-- The dictionary returned by `import_trades`: either
`{"success": False, "error": ..., "validation_errors": [...]}` or
`{"success": True, "imported_count": ..., "duplicate_count": ...,
"total_count": ...}` together with the merged collection passed to
`save_trades`. -/
inductive ImportResult where
  | failure (error : String) (validation_errors : List String)
  | ok (merged : List Trade) (imported_count duplicate_count total_count : ℕ)
  deriving DecidableEq, Repr

/-- `import_trades` (app.py, lines 838-971), generic (non-Tastytrade)
path, after the CSV has been read and column-mapped: validate the batch
(any validation error rejects it whole), normalize every row, optionally
drop incoming rows whose duplicate key occurs among the existing trades,
and concatenate the survivors after the existing records. -/
def import_trades (pdDate : String → Option String) (existing : List Trade)
    (rows : List ImportRow) (skip_duplicates : Bool) : ImportResult :=
  let errs := validate_import_data pdDate rows
  if errs = [] then
    let mapped := rows.map (normalizeRow pdDate)
    let dedup :=
      if skip_duplicates ∧ existing ≠ [] then
        let ekeys := existing.map dupKey
        let filtered := mapped.filter fun t => !(ekeys.contains (dupKey t))
        (filtered, mapped.length - filtered.length)
      else (mapped, 0)
    let combined := if existing = [] then dedup.1 else existing ++ dedup.1
    ImportResult.ok combined dedup.1.length dedup.2 combined.length
  else ImportResult.failure "Validation errors found" errs

/-- The incoming candidates that survive duplicate detection against
`existing` (the filter of app.py line 946). -/
def importSurvivors (pdDate : String → Option String) (existing : List Trade)
    (rows : List ImportRow) : List Trade :=
  (rows.map (normalizeRow pdDate)).filter fun t =>
    !((existing.map dupKey).contains (dupKey t))

/-- The merged collection a result saves (empty for a failed batch). -/
def importResultMerged : ImportResult → List Trade
  | ImportResult.failure _ _ => []
  | ImportResult.ok merged _ _ _ => merged

/-- A concrete instance of the external pandas date parser in which every
date string parses and is already canonical. -/
def pdDateId : String → Option String := fun s => some s

/-! ## Tastytrade broker row parser -/

/-- Value of a string of decimal digits (the digit characters of a Python
numeric literal). -/
def digitsToNat (cs : List Char) : ℕ :=
  cs.foldl (fun n c => n * 10 + (c.toNat - 48)) 0

/-- Python `float(s)` on a string consisting only of digits and `'.'`:
fails when there is more than one dot or no digit at all, otherwise yields
`intPart.fracPart` as an exact rational. -/
def parseDecimal (cs : List Char) : Option ℚ :=
  if cs.count '.' = 0 then
    if cs = [] then none
    else some ((digitsToNat cs : ℕ) : ℚ)
  else if cs.count '.' = 1 then
    if (cs.takeWhile fun c => c ≠ '.') = [] ∧ ((cs.dropWhile fun c => c ≠ '.').drop 1) = [] then
      none
    else
      some ((digitsToNat (cs.takeWhile fun c => c ≠ '.') : ℚ) +
        (digitsToNat ((cs.dropWhile fun c => c ≠ '.').drop 1) : ℚ) /
          (10 : ℚ) ^ ((cs.dropWhile fun c => c ≠ '.').drop 1).length)
  else none

/-- The first whitespace-delimited token of a string
(`s.split()[0]` in Python; `[]` when the string is all whitespace). -/
def firstTok (s : String) : List Char :=
  (s.toList.dropWhile Char.isWhitespace).takeWhile fun c => !c.isWhitespace

/-- Price extraction from the Tastytrade `Price` column
(app.py, lines 1086-1096): take the first whitespace-delimited token,
keep only digits and decimal points, fail if nothing remains, then
`float(...)` (whose failure is swallowed by the enclosing `except` and
also yields `None`). -/
def extract_price (priceField : String) : Option ℚ :=
  if firstTok priceField = [] then none
  else if (firstTok priceField).filter (fun c => c.isDigit || c = '.') = [] then none
  else parseDecimal ((firstTok priceField).filter (fun c => c.isDigit || c = '.'))

/-- `re.search(r'([+-]?\d+)', s)`: the first signed-or-unsigned integer
token in `s`, as an integer (app.py, lines 1110-1113). -/
def findSignedInt : List Char → Option ℤ
  | [] => none
  | c :: rest =>
    if c.isDigit then
      some ((digitsToNat ((c :: rest).takeWhile Char.isDigit) : ℕ) : ℤ)
    else if (c = '+' ∨ c = '-') ∧ (rest.head?.elim false Char.isDigit = true) then
      let mag : ℤ := ((digitsToNat (rest.takeWhile Char.isDigit) : ℕ) : ℤ)
      some (if c = '-' then -mag else mag)
    else findSignedInt rest

/-- One row of a Tastytrade export, keyed by the columns the parser reads
(`row.get(...)` in app.py, lines 1081-1102). -/
structure TastyRow where
  Symbol : String
  Price : String
  Description : String
  Status : String
  Time : String
  TimeStampAtType : String
  deriving DecidableEq, Repr

/-- The candidate record assembled by the success path of
`parse_tastytrade_row` (app.py, lines 1098-1184), given the already
extracted price. `today` models `datetime.now().strftime('%Y-%m-%d')`
(line 1105). The bindings kept with an underscore mirror variables the
source computes but never uses (`status`, `time_info`, `is_credit`). -/
def tastyCandidate (today : String) (row : TastyRow) (price : ℚ) : Trade :=
      let symbol := pyStrip (pyUpper row.Symbol)
      let description := row.Description
      let _status := row.Status
      let _time_info := if row.Time ≠ "" then row.Time else row.TimeStampAtType
      let date := today
      let quantity := (findSignedInt description.toList).getD 1
      let _is_credit := strContains (pyLower row.Price) "cr"
      let entry_price := price
      let closing := strContains description "STC" || strContains description "BTC"
      let exit_price := if closing then entry_price else 0
      let trade_status := if closing then "Closed" else "Open"
      let strategy :=
        if strContains description "Put" then
          if strContains description "STO" then "Cash Secured Put"
          else if strContains description "BTC" then "Long Put"
          else if strContains description "BTO" then "Long Put"
          else if strContains description "STC" then "Cash Secured Put"
          else if 0 < quantity then "Long Put" else "Cash Secured Put"
        else if strContains description "Call" then
          if strContains description "STO" then "Covered Call"
          else if strContains description "BTC" then "Long Call"
          else if strContains description "BTO" then "Long Call"
          else if strContains description "STC" then "Covered Call"
          else if 0 < quantity then "Long Call" else "Covered Call"
        else if strContains description "Stock" || strContains description "Equity" then
          if 0 < quantity then "Long Stock" else "Short Stock"
        else if symbol.startsWith "/" || symbol.endsWith "U5"
                || symbol.endsWith "H5" || symbol.endsWith "Z5" then
          if 0 < quantity then "Long Futures" else "Short Futures"
        else
          if 0 < quantity then "Long Stock" else "Short Stock"
      { date := date
        symbol := symbol
        strategy := strategy
        entry_price := entry_price
        exit_price := exit_price
        quantity := quantity
        pnl := 0
        notes := description
        status := trade_status }

/-- `parse_tastytrade_row` (app.py, lines 1069-1188): empty normalized
symbol or an unextractable price yields `None`; otherwise the assembled
candidate. -/
def parse_tastytrade_row (today : String) (row : TastyRow) : Option Trade :=
  if pyStrip (pyUpper row.Symbol) = "" then none
  else
    match extract_price row.Price with
    | none => none
    | some price => some (tastyCandidate today row price)

/-- Existing collection for the `c4_witness` scenario: one AAPL trade with
duplicate key `2023-01-01_AAPL_150`. -/
def existingC4 : List Trade :=
  [{ date := "2023-01-01", symbol := "AAPL", strategy := "Long Stock",
     entry_price := 150, exit_price := 0, quantity := 10, pnl := 0,
     notes := "", status := "Open" }]

/-- Incoming batch for the `c4_witness` scenario: one row duplicating the
existing AAPL key and one fresh MSFT row. -/
def rowsC4 : List ImportRow :=
  [{ date := "2023-01-01", symbol := "AAPL", strategy := "Long Stock",
     entry_price := 150, quantity := 10, exit_price := none, notes := "" },
   { date := "2023-01-02", symbol := "MSFT", strategy := "Long Stock",
     entry_price := 200, quantity := 5, exit_price := none, notes := "" }]

/-- Existing trade for the `c10` scenario (key `2023-01-01_AAPL_150`). -/
def existingTradeC10 : Trade :=
  { date := "2023-01-01", symbol := "AAPL", strategy := "Long Stock",
    entry_price := 150, exit_price := 0, quantity := 10, pnl := 0,
    notes := "", status := "Open" }

/-- Incoming row repeated twice in the `c10` batch
(key `2023-01-02_MSFT_200`, absent from the existing collection). -/
def incomingRowC10 : ImportRow :=
  { date := "2023-01-02", symbol := "MSFT", strategy := "Long Stock",
    entry_price := 200, quantity := 5, exit_price := none, notes := "" }

/-- The trade the `c10` row normalizes to. -/
def importedTradeC10 : Trade :=
  { date := "2023-01-02", symbol := "MSFT", strategy := "Long Stock",
    entry_price := 200, exit_price := 0, quantity := 5, pnl := 0,
    notes := "", status := "Open" }

/-! ## Theorems -/

/-- C6: for every entry price, quantity and strategy,
`calculate_pnl(entry, 0, quantity, strategy)` returns 0 — the
`exit_price = 0` open-trade sentinel never carries realized P&L. -/
theorem c6_open_trade_zero_pnl :
    ∀ (entry : ℚ) (q : ℤ) (strategy : String),
      calculate_pnl entry 0 q strategy = 0 := by
  intro entry q strategy
  simp [calculate_pnl]

/-- C1 (code-bug evidence): at the claim's own example,
`calculate_pnl(0.15, 1.06, 1, "Long Put")` evaluates to −91, not the 91
required by the claim, the function's docstring, and
`test_pnl_calculation.py`: the code applies the seller formula
`(entry − exit) × |q| × 100` to the buying strategies as well. -/
theorem c1_calculate_pnl_long_put_negative :
    calculate_pnl (15/100) (106/100) 1 "Long Put" = -91 ∧
    calculate_pnl (15/100) (106/100) 1 "Long Put" ≠ 91 := by
  constructor <;> norm_num [calculate_pnl]

/-- C2 counterexample: a batch holding one valid row and one invalid row
(quantity 0) is rejected whole — the result is the failure dictionary and
the valid row is not imported, contradicting "a failing row never causes
the whole batch to be rejected". -/
theorem c2_counterexample_failing_row_rejects_batch :
    validateImportRow pdDateId 0
      { date := "2023-01-01", symbol := "AAPL", strategy := "Long Stock",
        entry_price := 150, quantity := 10, exit_price := none, notes := "" } = [] ∧
    import_trades pdDateId []
      [{ date := "2023-01-01", symbol := "AAPL", strategy := "Long Stock",
         entry_price := 150, quantity := 10, exit_price := none, notes := "" },
       { date := "2023-01-02", symbol := "MSFT", strategy := "Long Stock",
         entry_price := 200, quantity := 0, exit_price := none, notes := "" }] false =
      ImportResult.failure "Validation errors found"
        ["Row 2: Quantity cannot be zero"] := by
  decide

/-- C2 amended: per-row validation errors are accumulated and returned as
data, but any validation error rejects the entire batch — no row of the
batch (valid rows included) is merged. -/
theorem c2_amended_batch_rejected_on_validation_errors
    (pdDate : String → Option String) (existing : List Trade)
    (rows : List ImportRow) (skip : Bool)
    (h : validate_import_data pdDate rows ≠ []) :
    import_trades pdDate existing rows skip =
      ImportResult.failure "Validation errors found"
        (validate_import_data pdDate rows) := by
  unfold import_trades
  rw [if_neg h]

/-- Witness for `c2_amended_batch_rejected_on_validation_errors` at a
concrete one-row batch whose row has quantity 0. -/
theorem c2_witness :
    validate_import_data pdDateId
      [{ date := "2023-01-02", symbol := "MSFT", strategy := "Long Stock",
         entry_price := 200, quantity := 0, exit_price := none, notes := "" }] ≠ [] ∧
    import_trades pdDateId []
      [{ date := "2023-01-02", symbol := "MSFT", strategy := "Long Stock",
         entry_price := 200, quantity := 0, exit_price := none, notes := "" }] true =
      ImportResult.failure "Validation errors found"
        (validate_import_data pdDateId
          [{ date := "2023-01-02", symbol := "MSFT", strategy := "Long Stock",
             entry_price := 200, quantity := 0, exit_price := none, notes := "" }]) :=
  ⟨by decide,
   c2_amended_batch_rejected_on_validation_errors pdDateId [] _ true (by decide)⟩

/-- C3 counterexample: the generic import path derives
`status = 'Closed' if exit_price > 0 else 'Open'`, so an imported row with
`exit_price = −1` produces a trade with `status = Open` although its
`exit_price ≠ 0` — refuting "status = Closed iff exit_price ≠ 0 …
including when exit_price is negative". -/
theorem c3_counterexample_negative_exit_import_open :
    (importResultMerged (import_trades pdDateId []
      [{ date := "2023-01-01", symbol := "AAPL", strategy := "Long Stock",
         entry_price := 150, quantity := 10, exit_price := some (-1),
         notes := "" }] false)).map Trade.status = ["Open"] ∧
    (importResultMerged (import_trades pdDateId []
      [{ date := "2023-01-01", symbol := "AAPL", strategy := "Long Stock",
         entry_price := 150, quantity := 10, exit_price := some (-1),
         notes := "" }] false)).map Trade.exit_price = [-1] ∧
    ((-1 : ℚ) ≠ 0) := by
  refine ⟨by decide, by decide, by norm_num⟩

/-- C3 amended: the manual `add_trade` path satisfies
`status = Closed ↔ exit_price ≠ 0`, while the import path derives
`status = Closed ↔ exit_price > 0` — a negative imported exit price
yields an Open trade. -/
theorem c3_amended_status_rules :
    (∀ (td : TradeData) (t : Trade), add_trade td = some t →
        (t.status = "Closed" ↔ t.exit_price ≠ 0)) ∧
    (∀ (pdDate : String → Option String) (r : ImportRow),
        (normalizeRow pdDate r).status = "Closed" ↔ 0 < r.exit_price.getD 0) := by
  constructor
  · intro td t h
    unfold add_trade at h
    cases hv : validate_trade_data td with
    | some msg => rw [hv] at h; simp at h
    | none =>
      rw [hv] at h
      simp only [Option.some.injEq] at h
      subst h
      by_cases hx : td.exit_price = 0 <;> simp [hx]
  · intro pdDate r
    unfold normalizeRow
    by_cases hx : 0 < r.exit_price.getD 0 <;> simp [hx]

/-- Witness for `c3_amended_status_rules` at a concrete open manual trade
and a concrete closed imported row. -/
theorem c3_witness :
    (add_trade
        { date := "2023-01-01", symbol := "AAPL", strategy := "Long Stock",
          entry_price := 150, exit_price := 0, quantity := 10, notes := "" } =
      some
        { date := "2023-01-01", symbol := "AAPL", strategy := "Long Stock",
          entry_price := 150, exit_price := 0, quantity := 10, pnl := 0,
          notes := "", status := "Open" }) ∧
    (({ date := "2023-01-01", symbol := "AAPL", strategy := "Long Stock",
        entry_price := 150, exit_price := 0, quantity := 10, pnl := 0,
        notes := "", status := "Open" } : Trade).status = "Closed" ↔
      ({ date := "2023-01-01", symbol := "AAPL", strategy := "Long Stock",
         entry_price := 150, exit_price := 0, quantity := 10, pnl := 0,
         notes := "", status := "Open" } : Trade).exit_price ≠ 0) ∧
    ((normalizeRow pdDateId
        { date := "2023-01-02", symbol := "MSFT", strategy := "Long Stock",
          entry_price := 200, quantity := 5, exit_price := some 1,
          notes := "" }).status = "Closed" ↔
      0 < (some (1 : ℚ)).getD 0) :=
  ⟨by decide,
   c3_amended_status_rules.1
     { date := "2023-01-01", symbol := "AAPL", strategy := "Long Stock",
       entry_price := 150, exit_price := 0, quantity := 10, notes := "" }
     { date := "2023-01-01", symbol := "AAPL", strategy := "Long Stock",
       entry_price := 150, exit_price := 0, quantity := 10, pnl := 0,
       notes := "", status := "Open" }
     (by decide),
   c3_amended_status_rules.2 pdDateId
     { date := "2023-01-02", symbol := "MSFT", strategy := "Long Stock",
       entry_price := 200, quantity := 5, exit_price := some 1, notes := "" }⟩

/-- C5: for a candidate passing the earlier checks (symbol, strategy,
entry price, quantity), validation raises a direction-mismatch error iff
the strategy label contains "Short" with positive quantity or contains
"Long" with negative quantity; consequently "Cash Secured Put" and
"Covered Call" (containing neither word) always pass. -/
theorem c5_direction_mismatch_iff (td : TradeData)
    (hsym : ¬ td.symbol = "") (hstrat : ¬ td.strategy = "")
    (hentry : 0 < td.entry_price) (hqty : ¬ td.quantity = 0) :
    ((validate_trade_data td = some "Short strategies require negative quantity" ∨
      validate_trade_data td = some "Long strategies require positive quantity") ↔
      ((strContains td.strategy "Short" = true ∧ 0 < td.quantity) ∨
       (strContains td.strategy "Long" = true ∧ td.quantity < 0))) ∧
    ((td.strategy = "Cash Secured Put" ∨ td.strategy = "Covered Call") →
      validate_trade_data td = none) := by
  have hentry' : ¬ td.entry_price ≤ 0 := not_le.mpr hentry
  unfold validate_trade_data
  rw [if_neg hsym, if_neg hstrat, if_neg hentry', if_neg hqty]
  split_ifs with h1 h2
  · refine ⟨⟨fun _ => Or.inl ⟨h1.2, h1.1⟩, fun _ => Or.inl rfl⟩, ?_⟩
    intro hcc
    exfalso
    rcases hcc with hcc | hcc <;> rw [hcc] at h1 <;> exact absurd h1.2 (by decide)
  · refine ⟨⟨fun _ => Or.inr ⟨h2.2, h2.1⟩, fun _ => Or.inr rfl⟩, ?_⟩
    intro hcc
    exfalso
    rcases hcc with hcc | hcc <;> rw [hcc] at h2 <;> exact absurd h2.2 (by decide)
  · refine ⟨⟨fun h => ?_, fun h => ?_⟩, fun _ => rfl⟩
    · rcases h with h | h <;> simp at h
    · exfalso
      rcases h with ⟨hc, hq⟩ | ⟨hc, hq⟩
      · exact h1 ⟨hq, hc⟩
      · exact h2 ⟨hq, hc⟩

/-- Witness for `c5_direction_mismatch_iff` at the candidate
(symbol "AAPL", strategy "Short Call", entry 1, exit 0, quantity 1). -/
theorem c5_witness :
    (¬ ("AAPL" : String) = "" ∧ ¬ ("Short Call" : String) = "" ∧
     (0 : ℚ) < 1 ∧ ¬ (1 : ℤ) = 0) ∧
    (((validate_trade_data ⟨"2023-01-01", "AAPL", "Short Call", 1, 0, 1, ""⟩ =
         some "Short strategies require negative quantity" ∨
       validate_trade_data ⟨"2023-01-01", "AAPL", "Short Call", 1, 0, 1, ""⟩ =
         some "Long strategies require positive quantity") ↔
      ((strContains "Short Call" "Short" = true ∧ (0 : ℤ) < 1) ∨
       (strContains "Short Call" "Long" = true ∧ (1 : ℤ) < 0))) ∧
     ((("Short Call" : String) = "Cash Secured Put" ∨
       ("Short Call" : String) = "Covered Call") →
      validate_trade_data ⟨"2023-01-01", "AAPL", "Short Call", 1, 0, 1, ""⟩ = none)) :=
  ⟨⟨by decide, by decide, by decide, by decide⟩,
   c5_direction_mismatch_iff ⟨"2023-01-01", "AAPL", "Short Call", 1, 0, 1, ""⟩
     (by decide) (by decide) (by decide) (by decide)⟩

/-- C7 counterexample: the manual validation engine
(`validate_trade_data`) accepts a candidate whose strategy is present but
not a member of the fixed enumeration — it only checks that the strategy
string is non-empty. -/
theorem c7_counterexample_nonenum_strategy_accepted :
    validate_trade_data
      { date := "2023-01-01", symbol := "AAPL", strategy := "Bogus Strategy",
        entry_price := 1, exit_price := 0, quantity := 1, notes := "" } = none ∧
    ("Bogus Strategy" : String) ∉ STRATEGY_OPTIONS := by
  decide

/-- A row whose per-row import validation produced no error has its
strategy in the fixed enumeration. -/
lemma validateImportRow_nil_strategy_mem (pdDate : String → Option String)
    (idx : ℕ) (r : ImportRow) (h : validateImportRow pdDate idx r = []) :
    r.strategy ∈ STRATEGY_OPTIONS := by
  unfold validateImportRow at h
  simp only [List.append_eq_nil] at h
  obtain ⟨⟨⟨⟨_, _⟩, hc⟩, _⟩, _⟩ := h
  by_cases hm : r.strategy ∈ STRATEGY_OPTIONS
  · exact hm
  · rw [if_neg hm] at hc
    simp at hc

/-- If the whole batch validates cleanly, every row's per-row check was
clean; in particular every strategy is in the enumeration. -/
lemma validate_rows_nil_strategy_mem (pdDate : String → Option String) :
    ∀ (idx : ℕ) (rows : List ImportRow),
      validate_rows pdDate idx rows = [] →
      ∀ r ∈ rows, r.strategy ∈ STRATEGY_OPTIONS := by
  intro idx rows
  induction rows generalizing idx with
  | nil =>
    intro _ r hr
    exact absurd hr (List.not_mem_nil r)
  | cons a as ih =>
    intro h r hr
    simp only [validate_rows, List.append_eq_nil] at h
    rcases List.mem_cons.mp hr with rfl | hr2
    · exact validateImportRow_nil_strategy_mem _ _ _ h.1
    · exact ih (idx + 1) h.2 r hr2

/-- C7 amended: the import validation engine does enforce enumeration
membership — a batch that validates cleanly holds only enumerated
strategies, and a row with a non-enumerated strategy receives the
invalid-strategy error — while the manual engine only requires a
non-empty strategy (see the counterexample). -/
theorem c7_amended_import_enum_check :
    (∀ (pdDate : String → Option String) (rows : List ImportRow),
        validate_import_data pdDate rows = [] →
        ∀ r ∈ rows, r.strategy ∈ STRATEGY_OPTIONS) ∧
    (∀ (pdDate : String → Option String) (idx : ℕ) (r : ImportRow),
        r.strategy ∉ STRATEGY_OPTIONS →
        ("Row " ++ toString (idx + 1) ++ ": Invalid strategy") ∈
          validateImportRow pdDate idx r) := by
  constructor
  · intro pdDate rows h r hr
    exact validate_rows_nil_strategy_mem pdDate 0 rows h r hr
  · intro pdDate idx r h
    unfold validateImportRow
    rw [if_neg h]
    simp

/-- Witness for `c7_amended_import_enum_check`: a clean one-row batch
yields an enumerated strategy, and a bogus-strategy row receives the
invalid-strategy error. -/
theorem c7_witness :
    (("Long Stock" : String) ∈ STRATEGY_OPTIONS) ∧
    (("Bogus Strategy" : String) ∉ STRATEGY_OPTIONS) ∧
    (("Row " ++ toString (0 + 1) ++ ": Invalid strategy") ∈
      validateImportRow pdDateId 0
        { date := "2023-01-01", symbol := "AAPL", strategy := "Bogus Strategy",
          entry_price := 1, quantity := 1, exit_price := none, notes := "" }) :=
  ⟨c7_amended_import_enum_check.1 pdDateId
     [{ date := "2023-01-01", symbol := "AAPL", strategy := "Long Stock",
        entry_price := 1, quantity := 1, exit_price := none, notes := "" }]
     (by decide)
     { date := "2023-01-01", symbol := "AAPL", strategy := "Long Stock",
       entry_price := 1, quantity := 1, exit_price := none, notes := "" }
     (by decide),
   by decide,
   c7_amended_import_enum_check.2 pdDateId 0
     { date := "2023-01-01", symbol := "AAPL", strategy := "Bogus Strategy",
       entry_price := 1, quantity := 1, exit_price := none, notes := "" }
     (by decide)⟩

/-- C4: with `skip_duplicates = true` and a cleanly validating batch,
the import returns success with the surviving candidates appended after
the existing records; a candidate survives iff its `(date, symbol,
entry_price)` duplicate key matches no existing record's key; and
`imported_count + duplicate_count` equals the number of incoming
candidates. -/
theorem c4_import_dedup_spec (pdDate : String → Option String)
    (existing : List Trade) (rows : List ImportRow)
    (hval : validate_import_data pdDate rows = []) :
    import_trades pdDate existing rows true =
      ImportResult.ok (existing ++ importSurvivors pdDate existing rows)
        (importSurvivors pdDate existing rows).length
        (rows.length - (importSurvivors pdDate existing rows).length)
        (existing ++ importSurvivors pdDate existing rows).length ∧
    (∀ r ∈ rows,
        (normalizeRow pdDate r ∈ importSurvivors pdDate existing rows ↔
          ¬ ∃ e ∈ existing, dupKey e = dupKey (normalizeRow pdDate r))) ∧
    (importSurvivors pdDate existing rows).length +
        (rows.length - (importSurvivors pdDate existing rows).length) =
      rows.length := by
  have hlen : (importSurvivors pdDate existing rows).length ≤ rows.length := by
    have h1 := List.length_filter_le
      (fun t => !((existing.map dupKey).contains (dupKey t)))
      (rows.map (normalizeRow pdDate))
    simpa [importSurvivors, List.length_map] using h1
  refine ⟨?_, ?_, ?_⟩
  · unfold import_trades
    rw [if_pos hval]
    by_cases hex : existing = []
    · subst hex
      have hsurv : importSurvivors pdDate ([] : List Trade) rows =
          rows.map (normalizeRow pdDate) := by
        unfold importSurvivors
        exact List.filter_eq_self.mpr (fun a _ => rfl)
      simp [hsurv, List.length_map]
    · simp [hex, importSurvivors, List.length_map]
  · intro r hr
    unfold importSurvivors
    rw [List.mem_filter]
    have hmem : normalizeRow pdDate r ∈ rows.map (normalizeRow pdDate) :=
      List.mem_map_of_mem (normalizeRow pdDate) hr
    constructor
    · rintro ⟨-, hp⟩ ⟨e, he, hk⟩
      have hc : (existing.map dupKey).contains (dupKey (normalizeRow pdDate r)) = true := by
        simp only [List.contains, List.elem_eq_mem, decide_eq_true_eq]
        exact hk ▸ List.mem_map_of_mem dupKey he
      rw [hc] at hp
      simp at hp
    · intro hne
      refine ⟨hmem, ?_⟩
      simp only [List.contains, List.elem_eq_mem, Bool.not_eq_true', decide_eq_false_iff_not]
      intro hin
      rcases List.mem_map.mp hin with ⟨e, he, hk⟩
      exact hne ⟨e, he, hk⟩
  · exact Nat.add_sub_cancel' hlen

/-- Witness for `c4_import_dedup_spec` on a batch with one duplicate and
one fresh row against a one-trade existing collection. -/
theorem c4_witness :
    validate_import_data pdDateId rowsC4 = [] ∧
    (import_trades pdDateId existingC4 rowsC4 true =
        ImportResult.ok (existingC4 ++ importSurvivors pdDateId existingC4 rowsC4)
          (importSurvivors pdDateId existingC4 rowsC4).length
          (rowsC4.length - (importSurvivors pdDateId existingC4 rowsC4).length)
          (existingC4 ++ importSurvivors pdDateId existingC4 rowsC4).length ∧
      (∀ r ∈ rowsC4,
          (normalizeRow pdDateId r ∈ importSurvivors pdDateId existingC4 rowsC4 ↔
            ¬ ∃ e ∈ existingC4, dupKey e = dupKey (normalizeRow pdDateId r))) ∧
      (importSurvivors pdDateId existingC4 rowsC4).length +
          (rowsC4.length - (importSurvivors pdDateId existingC4 rowsC4).length) =
        rowsC4.length) :=
  ⟨by decide, c4_import_dedup_spec pdDateId existingC4 rowsC4 (by decide)⟩

/-- C10: with `skip_duplicates = true`, two incoming rows sharing a
duplicate key that does not occur among the existing trades are both
both imported and neither is counted in `duplicate_count` — duplicate
detection compares incoming candidates only against the existing
collection, never against each other. -/
theorem c10_same_batch_duplicates_both_imported :
    dupKey importedTradeC10 ≠ dupKey existingTradeC10 ∧
    import_trades pdDateId [existingTradeC10] [incomingRowC10, incomingRowC10] true =
      ImportResult.ok [existingTradeC10, importedTradeC10, importedTradeC10] 2 0 3 := by
  decide

/-- Taking the non-whitespace head run of `a ++ ' ' :: t` never reaches
past the separator, so it does not depend on `t`. -/
lemma takeWhile_not_ws_append (a : List Char) (t : List Char) :
    ((a ++ ' ' :: t).takeWhile fun c => !c.isWhitespace) =
      a.takeWhile fun c => !c.isWhitespace := by
  induction a with
  | nil => rfl
  | cons c a ih =>
    by_cases hc : (!c.isWhitespace) = true
    · rw [List.cons_append,
        @List.takeWhile_cons_of_pos _ (fun c => !c.isWhitespace) c (a ++ ' ' :: t) hc,
        @List.takeWhile_cons_of_pos _ (fun c => !c.isWhitespace) c a hc, ih]
    · rw [List.cons_append,
        @List.takeWhile_cons_of_neg _ (fun c => !c.isWhitespace) c (a ++ ' ' :: t) hc,
        @List.takeWhile_cons_of_neg _ (fun c => !c.isWhitespace) c a hc]

/-- The first whitespace-delimited token of `l ++ " cr"` and of
`l ++ " db"`: either both equal the first token contributed by `l`
(when `l` has a non-whitespace character), or they are `"cr"` and `"db"`
respectively (when `l` is all whitespace). -/
lemma tok_append_cr_db (l : List Char) :
    ((l ++ [' ', 'c', 'r']).dropWhile Char.isWhitespace).takeWhile
        (fun c => !c.isWhitespace) =
      ((l ++ [' ', 'd', 'b']).dropWhile Char.isWhitespace).takeWhile
        (fun c => !c.isWhitespace) ∨
    (((l ++ [' ', 'c', 'r']).dropWhile Char.isWhitespace).takeWhile
        (fun c => !c.isWhitespace) = ['c', 'r'] ∧
     ((l ++ [' ', 'd', 'b']).dropWhile Char.isWhitespace).takeWhile
        (fun c => !c.isWhitespace) = ['d', 'b']) := by
  induction l with
  | nil => exact Or.inr ⟨rfl, rfl⟩
  | cons c l ih =>
    by_cases hc : Char.isWhitespace c = true
    · rw [List.cons_append, List.dropWhile_cons_of_pos hc,
        List.cons_append, List.dropWhile_cons_of_pos hc] at *
      exact ih
    · have hp : (!c.isWhitespace) = true := by
        rw [Bool.eq_false_iff.mpr hc]
        rfl
      left
      rw [List.cons_append, List.dropWhile_cons_of_neg hc,
        List.cons_append, List.dropWhile_cons_of_neg hc,
        @List.takeWhile_cons_of_pos _ (fun c => !c.isWhitespace) c (l ++ [' ', 'c', 'r']) hp,
        @List.takeWhile_cons_of_pos _ (fun c => !c.isWhitespace) c (l ++ [' ', 'd', 'b']) hp,
        takeWhile_not_ws_append l ['c', 'r'], takeWhile_not_ws_append l ['d', 'b']]

/-- The `cr`/`db` suffix that follows the numeric token of the Tastytrade
`Price` field never changes the extracted price. -/
lemma extract_price_append_cr_db (p : String) :
    extract_price (p ++ " cr") = extract_price (p ++ " db") := by
  have e1 : (p ++ " cr").toList = p.toList ++ [' ', 'c', 'r'] :=
    String.data_append p " cr"
  have e2 : (p ++ " db").toList = p.toList ++ [' ', 'd', 'b'] :=
    String.data_append p " db"
  unfold extract_price firstTok
  rw [e1, e2]
  rcases tok_append_cr_db p.toList with h | ⟨h1, h2⟩
  · rw [h]
  · rw [h1, h2]
    decide

/-- Any value `parseDecimal` produces is nonnegative (it is assembled from
digit values only; no sign is ever parsed). -/
lemma parseDecimal_nonneg (cs : List Char) (q : ℚ)
    (h : parseDecimal cs = some q) : 0 ≤ q := by
  unfold parseDecimal at h
  split_ifs at h
  · rw [Option.some.injEq] at h
    subst h
    positivity
  · rw [Option.some.injEq] at h
    subst h
    positivity

/-- Any price `extract_price` produces is nonnegative. -/
lemma extract_price_nonneg (s : String) (q : ℚ)
    (h : extract_price s = some q) : 0 ≤ q := by
  unfold extract_price at h
  split_ifs at h
  exact parseDecimal_nonneg _ _ h

/-- C8: whenever the Tastytrade row parser produces a candidate, the
stored `entry_price` is exactly the (nonnegative) numeric magnitude
extracted from the first whitespace-delimited token of the `Price` field,
and the trailing credit/debit marker never changes the result: two rows
identical except for a `" cr"` vs `" db"` suffix on the price parse to
identical candidates. -/
theorem c8_entry_price_magnitude_cr_db :
    (∀ (today : String) (row : TastyRow) (t : Trade),
        parse_tastytrade_row today row = some t →
        extract_price row.Price = some t.entry_price ∧ 0 ≤ t.entry_price) ∧
    (∀ (today : String) (row : TastyRow) (p : String),
        parse_tastytrade_row today { row with Price := p ++ " cr" } =
          parse_tastytrade_row today { row with Price := p ++ " db" }) := by
  constructor
  · intro today row t h
    unfold parse_tastytrade_row at h
    split_ifs at h
    cases hp : extract_price row.Price with
    | none =>
      rw [hp] at h
      simp at h
    | some price =>
      rw [hp] at h
      dsimp only at h
      rw [Option.some.injEq] at h
      subst h
      constructor
      · rfl
      · exact extract_price_nonneg _ _ hp
  · intro today row p
    have he : extract_price (p ++ " cr") = extract_price (p ++ " db") :=
      extract_price_append_cr_db p
    unfold parse_tastytrade_row
    dsimp only
    rw [he]
    rfl

/-- C9: the candidate the Tastytrade row parser returns carries the
the import-day date (`today`, the embedding of `datetime.now()`), and the
parse does not depend on the row's `Time` or `TimeStampAtType` columns:
two rows agreeing on the other columns parse identically. -/
theorem c9_parser_date_today_time_independent :
    (∀ (today : String) (row : TastyRow) (t : Trade),
        parse_tastytrade_row today row = some t → t.date = today) ∧
    (∀ (today : String) (r₁ r₂ : TastyRow),
        r₁.Symbol = r₂.Symbol → r₁.Price = r₂.Price →
        r₁.Description = r₂.Description → r₁.Status = r₂.Status →
        parse_tastytrade_row today r₁ = parse_tastytrade_row today r₂) := by
  constructor
  · intro today row t h
    unfold parse_tastytrade_row at h
    split_ifs at h
    cases hp : extract_price row.Price with
    | none =>
      rw [hp] at h
      simp at h
    | some price =>
      rw [hp] at h
      dsimp only at h
      rw [Option.some.injEq] at h
      subst h
      rfl
  · intro today r₁ r₂ h1 h2 h3 h4
    obtain ⟨s1, p1, d1, st1, t1, ts1⟩ := r₁
    obtain ⟨s2, p2, d2, st2, t2, ts2⟩ := r₂
    have e1 : s1 = s2 := h1
    have e2 : p1 = p2 := h2
    have e3 : d1 = d2 := h3
    have e4 : st1 = st2 := h4
    subst e1
    subst e2
    subst e3
    subst e4
    rfl

/-- Witness for `c8_entry_price_magnitude_cr_db`: a concrete opening
cash-secured-put row with price field `"12 cr"`, plus the `" cr"`/`" db"`
invariance at price token `"1.06"`. -/
theorem c8_witness :
    (parse_tastytrade_row "2024-01-01"
        ⟨"AAPL", "12 cr", "Sold -2 Put STO", "Filled", "t1", "x"⟩ =
      some ⟨"2024-01-01", "AAPL", "Cash Secured Put", 12, 0, -2, 0,
        "Sold -2 Put STO", "Open"⟩) ∧
    (extract_price "12 cr" = some (12 : ℚ) ∧ (0 : ℚ) ≤ 12) ∧
    (parse_tastytrade_row "2024-01-01"
        ⟨"AAPL", "1.06" ++ " cr", "Sold -2 Put STO", "Filled", "t1", "x"⟩ =
      parse_tastytrade_row "2024-01-01"
        ⟨"AAPL", "1.06" ++ " db", "Sold -2 Put STO", "Filled", "t1", "x"⟩) :=
  ⟨by decide,
   c8_entry_price_magnitude_cr_db.1 "2024-01-01"
     ⟨"AAPL", "12 cr", "Sold -2 Put STO", "Filled", "t1", "x"⟩
     ⟨"2024-01-01", "AAPL", "Cash Secured Put", 12, 0, -2, 0,
       "Sold -2 Put STO", "Open"⟩
     (by decide),
   c8_entry_price_magnitude_cr_db.2 "2024-01-01"
     ⟨"AAPL", "unused", "Sold -2 Put STO", "Filled", "t1", "x"⟩ "1.06"⟩

/-- Witness for `c9_parser_date_today_time_independent`: a concrete long
call row carries the import-day date, and changing only `Time` /
`TimeStampAtType` leaves the parse unchanged. -/
theorem c9_witness :
    (parse_tastytrade_row "2024-02-02"
        ⟨"MSFT", "7", "Bought 3 Call BTO", "Filled", "09:00", "a"⟩ =
      some ⟨"2024-02-02", "MSFT", "Long Call", 7, 0, 3, 0,
        "Bought 3 Call BTO", "Open"⟩) ∧
    ((⟨"2024-02-02", "MSFT", "Long Call", 7, 0, 3, 0,
        "Bought 3 Call BTO", "Open"⟩ : Trade).date = "2024-02-02") ∧
    (parse_tastytrade_row "2024-02-02"
        ⟨"MSFT", "7", "Bought 3 Call BTO", "Filled", "09:00", "a"⟩ =
      parse_tastytrade_row "2024-02-02"
        ⟨"MSFT", "7", "Bought 3 Call BTO", "Filled", "17:00", "b"⟩) :=
  ⟨by decide,
   c9_parser_date_today_time_independent.1 "2024-02-02"
     ⟨"MSFT", "7", "Bought 3 Call BTO", "Filled", "09:00", "a"⟩
     ⟨"2024-02-02", "MSFT", "Long Call", 7, 0, 3, 0, "Bought 3 Call BTO", "Open"⟩
     (by decide),
   c9_parser_date_today_time_independent.2 "2024-02-02"
     ⟨"MSFT", "7", "Bought 3 Call BTO", "Filled", "09:00", "a"⟩
     ⟨"MSFT", "7", "Bought 3 Call BTO", "Filled", "17:00", "b"⟩
     rfl rfl rfl rfl⟩
